import Mathlib

/-!
Verification of the melior IR-builder and pipeline core against its
specification.

The repository is a safe wrapper over an external IR engine (the MLIR C API).
The wrapper code under verification lives in three files:
`src/melior/src/ir/operation/builder.rs`, `src/melior/src/utility.rs` and
`src/melior/src/dialect/transform.rs`.  The external engine's state-mutation
entry points (`mlirOperationStateAdd*`) append to the accumulated operation
state; we embed that state as an explicit record and the entry points as pure
state transformers.  Handles to IR entities (values, types, regions) are
opaque to the wrapper, so the state is polymorphic in them.
-/

namespace Melior

/-- Two's-complement interpretation of a Rust `usize -> i32` `as`-cast
(`s.len() as i32` in `add_operands_with_segment_sizes`). -/
def i32ofNat (n : Nat) : Int :=
  ((n : Int)).bmod (2 ^ 32)

/-- Modelled from the spec: attribute values (`src/melior/src/ir/attribute.rs`
is not part of the provided sources).  The spec describes the
`operandSegmentSizes` attribute as "an ordered list of 32-bit integers, one
per declared operand segment"; a dense i32-array attribute stores exactly such
a list, and other attribute kinds are opaque to the builder. -/
inductive Attribute where
  | denseI32Array (values : List Int)
  | opaqueAttr (tag : String)
deriving DecidableEq, Repr

/-- Modelled from the spec: `DenseI32ArrayAttribute::new` builds the dense
32-bit integer array attribute from the given ordered list. -/
def DenseI32ArrayAttribute.new (values : List Int) : Attribute :=
  Attribute.denseI32Array values

/-- Modelled from the spec: decoding the `operandSegmentSizes` attribute
yields the stored ordered list of 32-bit integers. -/
def Attribute.decodeDenseI32Array : Attribute → Option (List Int)
  | Attribute.denseI32Array values => some values
  | Attribute.opaqueAttr _ => none

/-- Modelled from the spec: error kinds surfaced by the wrapper
(`src/melior/src/error.rs` is not part of the provided sources; the variants
`Error::OperationBuild` and `Error::ParsePassPipeline` are the ones the
provided sources construct). -/
inductive Error where
  | OperationBuild
  | ParsePassPipeline (message : String)
deriving DecidableEq, Repr

/-- The raw logical result returned by the external engine: an integer
where nonzero means success (MLIR's `MlirLogicalResult`). -/
structure MlirLogicalResult where
  value : Int
deriving DecidableEq, Repr

/-- Modelled from the spec: the wrapper's `LogicalResult`
(`src/melior/src/logical_result.rs` is not part of the provided sources);
the spec calls it "a boolean-like result". -/
structure LogicalResult where
  raw : MlirLogicalResult
deriving DecidableEq, Repr

/-- `LogicalResult::from_raw`. -/
def LogicalResult.from_raw (raw : MlirLogicalResult) : LogicalResult :=
  ⟨raw⟩

/-- Modelled from the spec: success of a boolean-like result is a nonzero
raw value. -/
def LogicalResult.is_success (result : LogicalResult) : Bool :=
  result.raw.value ≠ 0

/-- The accumulated operation state (`MlirOperationState`) behind an
`OperationBuilder`.  Polymorphic in the opaque handle types: `V` for values
(operands), `T` for types (results), `R` for regions.  Successor blocks and
the location are opaque handles modelled as `Nat`. -/
structure OperationState (V T R : Type) where
  name : String
  location : Nat
  results : List T
  operands : List V
  regions : List R
  successors : List Nat
  attributes : List (String × Attribute)
  enableResultTypeInference : Bool
deriving DecidableEq, Repr

variable {V T R : Type}

/-- The external engine's `mlirOperationStateGet`: a fresh accumulator seeded
with zero results, operands, regions, successors and attributes. -/
def mlirOperationStateGet (name : String) (location : Nat) :
    OperationState V T R :=
  { name := name
    location := location
    results := []
    operands := []
    regions := []
    successors := []
    attributes := []
    enableResultTypeInference := false }

/-- The external engine's `mlirOperationStateAddResults`: appends the given
result types to the accumulated state. -/
def mlirOperationStateAddResults (st : OperationState V T R)
    (results : List T) : OperationState V T R :=
  { st with results := st.results ++ results }

/-- The external engine's `mlirOperationStateAddOperands`: appends the given
operand values to the accumulated state. -/
def mlirOperationStateAddOperands (st : OperationState V T R)
    (operands : List V) : OperationState V T R :=
  { st with operands := st.operands ++ operands }

/-- The external engine's `mlirOperationStateAddOwnedRegions`: appends the
given regions, taking ownership. -/
def mlirOperationStateAddOwnedRegions (st : OperationState V T R)
    (regions : List R) : OperationState V T R :=
  { st with regions := st.regions ++ regions }

/-- The external engine's `mlirOperationStateAddSuccessors`: appends the
given successor block references. -/
def mlirOperationStateAddSuccessors (st : OperationState V T R)
    (successors : List Nat) : OperationState V T R :=
  { st with successors := st.successors ++ successors }

/-- The external engine's `mlirOperationStateAddAttributes`: appends the
given named attributes. -/
def mlirOperationStateAddAttributes (st : OperationState V T R)
    (attrs : List (String × Attribute)) : OperationState V T R :=
  { st with attributes := st.attributes ++ attrs }

/-- The external engine's `mlirOperationStateEnableResultTypeInference`. -/
def mlirOperationStateEnableResultTypeInference (st : OperationState V T R) :
    OperationState V T R :=
  { st with enableResultTypeInference := true }

namespace OperationBuilder

/-- `OperationBuilder::new(name, location)`. -/
def new (name : String) (location : Nat) : OperationState V T R :=
  mlirOperationStateGet name location

/-- `OperationBuilder::add_results`. -/
def add_results (st : OperationState V T R) (results : List T) :
    OperationState V T R :=
  mlirOperationStateAddResults st results

/-- `OperationBuilder::add_operands`. -/
def add_operands (st : OperationState V T R) (operands : List V) :
    OperationState V T R :=
  mlirOperationStateAddOperands st operands

/-- `OperationBuilder::add_operands_with_segment_sizes`.  Flattens the
segments into one operand list (skipping the engine call when the flat list
is empty, as the source does), then attaches an `operandSegmentSizes`
dense-i32-array attribute holding each segment's length cast to `i32`.  The
`context` parameter of the source only interns the identifier and attribute,
which the embedding represents by value, so it has no counterpart here. -/
def add_operands_with_segment_sizes (st : OperationState V T R)
    (segments : List (List V)) : OperationState V T R :=
  let all_operands : List V := segments.flatten
  let st1 :=
    if all_operands.isEmpty then st
    else mlirOperationStateAddOperands st all_operands
  let segment_sizes : List Int := segments.map (fun s => i32ofNat s.length)
  let segment_attr := DenseI32ArrayAttribute.new segment_sizes
  mlirOperationStateAddAttributes st1 [("operandSegmentSizes", segment_attr)]

/-- `OperationBuilder::add_regions`: the fixed-length (array) form.  The
source takes `[Region; N]` by value and forgets it after handing the regions
to the engine; the array is embedded as a function out of `Fin n`. -/
def add_regions {n : Nat} (st : OperationState V T R) (regions : Fin n → R) :
    OperationState V T R :=
  mlirOperationStateAddOwnedRegions st (List.ofFn regions)

/-- `OperationBuilder::add_regions_vec`: the variable-length (`Vec`) form.
The source hands the same length and contents to the engine, leaking the
`Vec`'s elements via `ManuallyDrop`. -/
def add_regions_vec (st : OperationState V T R) (regions : List R) :
    OperationState V T R :=
  mlirOperationStateAddOwnedRegions st regions

/-- `OperationBuilder::add_successors`: adds the blocks one at a time. -/
def add_successors (st : OperationState V T R) (successors : List Nat) :
    OperationState V T R :=
  successors.foldl (fun s b => mlirOperationStateAddSuccessors s [b]) st

/-- `OperationBuilder::add_attributes`: adds the named attributes one at a
time. -/
def add_attributes (st : OperationState V T R)
    (attrs : List (String × Attribute)) : OperationState V T R :=
  attrs.foldl (fun s a => mlirOperationStateAddAttributes s [a]) st

/-- `OperationBuilder::enable_result_type_inference`. -/
def enable_result_type_inference (st : OperationState V T R) :
    OperationState V T R :=
  mlirOperationStateEnableResultTypeInference st

/-- `OperationBuilder::build`: runs the external engine's
`mlirOperationCreate` on the accumulated state; a null (absent) operation
becomes `Error::OperationBuild` via `ok_or`.  The engine's construction step
is the parameter `create`, returning `none` for null. -/
def build {Op : Type} (create : OperationState V T R → Option Op)
    (st : OperationState V T R) : Except Error Op :=
  match create st with
  | some op => Except.ok op
  | none => Except.error Error.OperationBuild

end OperationBuilder

/-! ### `src/melior/src/utility.rs` -/

/-- The process-wide state guarding `register_all_passes`: whether the
`std::sync::Once` has fired, and how many times the external engine's raw
`mlirRegisterAllPasses` has actually executed. -/
structure PassRegistry where
  onceDone : Bool
  rawRegistrationCount : Nat
deriving DecidableEq, Repr

/-- The process state at startup: the `Once` has not fired and the raw
registration has never run. -/
def PassRegistry.initial : PassRegistry :=
  { onceDone := false, rawRegistrationCount := 0 }

/-- `register_all_passes`: `ONCE.call_once(|| mlirRegisterAllPasses())`.
Runs the raw registration and marks the `Once` done on the first call;
every later call leaves the state untouched. -/
def register_all_passes (s : PassRegistry) : PassRegistry :=
  if s.onceDone then s
  else { onceDone := true, rawRegistrationCount := s.rawRegistrationCount + 1 }

/-- `handle_parse_error`: one invocation of the diagnostic callback.  The raw
chunk only ever flows through `StringRef::as_str()`, so it is embedded as the
decode result: `some s` for a UTF-8-decodable chunk with text `s`, `none` for
a malformed one.  With an initialized accumulator, `message.extend(as_str())`
appends the text of a decodable chunk and nothing for a malformed one
(`Result` iterates over at most its `Ok` value); with no accumulator,
`*data = as_str().map(String::from).ok()` stores the chunk's decode result. -/
def handle_parse_error (data : Option String) (chunk : Option String) :
    Option String :=
  match data with
  | some message =>
    match chunk with
    | some s => some (message ++ s)
    | none => some message
  | none => chunk

/-- The diagnostic accumulated by `handle_parse_error` over a whole sequence
of callback invocations, starting from the absent message
(`let mut error_message = None`). -/
def accumulated_parse_error (chunks : List (Option String)) : Option String :=
  chunks.foldl handle_parse_error none

/-- `parse_pass_pipeline`: runs the external engine's `mlirParsePassPipeline`,
which invokes `handle_parse_error` once per diagnostic chunk and returns a
logical result.  The engine's behaviour on the given manager and source is
embedded as its observables: the raw result and the chunk sequence.  On
failure the accumulated message is surfaced as `Error::ParsePassPipeline`,
with a fixed fallback when no message was accumulated. -/
def parse_pass_pipeline (result : MlirLogicalResult)
    (chunks : List (Option String)) : Except Error Unit :=
  let error_message := accumulated_parse_error chunks
  if (LogicalResult.from_raw result).is_success then Except.ok ()
  else
    Except.error (Error.ParsePassPipeline
      (error_message.getD "failed to parse error message in UTF-8"))

/-! ### `src/melior/src/dialect/transform.rs` -/

/-- Modelled from the spec: the external engine's transform options record
(`MlirTransformOptions` lives behind the C API); the spec describes it as "a
small mutable record with two independently toggleable boolean flags". -/
structure TransformOptions where
  expensiveChecks : Bool
  enforceSingleTopLevel : Bool
deriving DecidableEq, Repr

/-- `TransformOptions::enable_expensive_checks`: forwards to
`mlirTransformOptionsEnableExpensiveChecks` and returns the same record. -/
def TransformOptions.enable_expensive_checks (o : TransformOptions)
    (enable : Bool) : TransformOptions :=
  { o with expensiveChecks := enable }

/-- `TransformOptions::expensive_checks_enabled`: forwards to
`mlirTransformOptionsGetExpensiveChecksEnabled`. -/
def TransformOptions.expensive_checks_enabled (o : TransformOptions) : Bool :=
  o.expensiveChecks

/-- `TransformOptions::enforce_single_top_level_transform_op`: forwards to
`mlirTransformOptionsEnforceSingleTopLevelTransformOp` and returns the same
record. -/
def TransformOptions.enforce_single_top_level_transform_op
    (o : TransformOptions) (enable : Bool) : TransformOptions :=
  { o with enforceSingleTopLevel := enable }

/-- `TransformOptions::single_top_level_transform_op_enforced`: forwards to
`mlirTransformOptionsGetEnforceSingleTopLevelTransformOp`. -/
def TransformOptions.single_top_level_transform_op_enforced
    (o : TransformOptions) : Bool :=
  o.enforceSingleTopLevel

/-- `apply_named_sequence`: runs the external engine's
`mlirTransformApplyNamedSequence` on the payload, transform root, transform
module and options; the engine's verdict on those arguments is embedded as
the raw logical result it returns.  Failure collapses to the generic
`Error::OperationBuild` kind, as the source does. -/
def apply_named_sequence (result : MlirLogicalResult) : Except Error Unit :=
  if (LogicalResult.from_raw result).is_success then Except.ok ()
  else Except.error Error.OperationBuild

/-- `merge_symbols_into_from_clone`: runs the external engine's
`mlirMergeSymbolsIntoFromClone` on the target and other operations; the
engine's verdict is embedded as the raw logical result.  Failure collapses
to the generic `Error::OperationBuild` kind, as the source does. -/
def merge_symbols_into_from_clone (result : MlirLogicalResult) :
    Except Error Unit :=
  if (LogicalResult.from_raw result).is_success then Except.ok ()
  else Except.error Error.OperationBuild

/-! ### Helper lemmas -/

theorem i32ofNat_eq_of_lt (n : Nat) (h : n < 2 ^ 31) : i32ofNat n = n := by
  have h0 : (0 : Int) ≤ (n : Int) := Int.ofNat_nonneg n
  have h1 : (n : Int) < (2 ^ 32 : Nat) := by
    have : (n : Int) < (2 : Int) ^ 31 := by exact_mod_cast h
    calc (n : Int) < (2 : Int) ^ 31 := this
      _ < (2 : Int) ^ 32 := by norm_num
      _ = ((2 ^ 32 : Nat) : Int) := by norm_num
  simp only [i32ofNat, Int.bmod]
  rw [Int.emod_eq_of_lt h0 h1]
  have h2 : (n : Int) < ((2 ^ 32 : Nat) + 1) / 2 := by
    have : (n : Int) < (2 : Int) ^ 31 := by exact_mod_cast h
    omega
  rw [if_pos h2]

theorem map_i32ofNat_length_of_lt {V : Type} (segments : List (List V))
    (h : ∀ s ∈ segments, s.length < 2 ^ 31) :
    segments.map (fun s => i32ofNat s.length)
      = segments.map (fun s => (s.length : Int)) := by
  apply List.map_congr_left
  intro s hs
  exact i32ofNat_eq_of_lt s.length (h s hs)

theorem map_i32ofNat_length_of_empty {V : Type} (segments : List (List V))
    (h : ∀ s ∈ segments, s = []) :
    segments.map (fun s => i32ofNat s.length)
      = List.replicate segments.length 0 := by
  induction segments with
  | nil => rfl
  | cons s rest ih =>
    have hs : s = [] := h s (List.mem_cons_self s rest)
    have hrest : ∀ t ∈ rest, t = [] := fun t ht => h t (List.mem_cons_of_mem s ht)
    have h0 : i32ofNat 0 = 0 := by decide
    simp [hs, h0, ih hrest, List.replicate_succ]

theorem foldl_handle_parse_error_some (chunks : List (Option String))
    (m : String) :
    chunks.foldl handle_parse_error (some m)
      = some ((chunks.filterMap id).foldl (fun a b => a ++ b) m) := by
  induction chunks generalizing m with
  | nil => rfl
  | cons c rest ih =>
    cases c with
    | none => simpa [handle_parse_error] using ih m
    | some s => simpa [handle_parse_error] using ih (m ++ s)

theorem accumulated_parse_error_eq (chunks : List (Option String)) :
    accumulated_parse_error chunks
      = match chunks.filterMap id with
        | [] => none
        | s :: rest => some (rest.foldl (fun a b => a ++ b) s) := by
  induction chunks with
  | nil => rfl
  | cons c rest ih =>
    cases c with
    | none =>
      simpa [accumulated_parse_error, handle_parse_error] using ih
    | some s =>
      simp [accumulated_parse_error, handle_parse_error,
        foldl_handle_parse_error_some]

theorem register_all_passes_fixed (k : Nat) (s : PassRegistry)
    (hs : s.onceDone = true) : register_all_passes^[k] s = s := by
  induction k with
  | zero => rfl
  | succ k ih =>
    rw [Function.iterate_succ_apply]
    have hstep : register_all_passes s = s := by
      simp [register_all_passes, hs]
    rw [hstep]
    exact ih

/-! ### Claim theorems -/

/-- Claim C1: for every list of operand segments with sizes
`[s0, s1, ..., sn]` (each size representable as a 32-bit integer, which the
source's `as i32` cast presumes), `add_operands_with_segment_sizes` extends
the operand list by the in-order concatenation of all segments — so the
total operand count grows by `sum(si)` — and attaches an attribute named
`operandSegmentSizes` whose decoded value is exactly the ordered integer
list `[s0, s1, ..., sn]`. -/
theorem add_operands_with_segment_sizes_correct {V T R : Type}
    (st : OperationState V T R) (segments : List (List V))
    (h : ∀ s ∈ segments, s.length < 2 ^ 31) :
    (OperationBuilder.add_operands_with_segment_sizes st segments).operands
        = st.operands ++ segments.flatten
    ∧ (OperationBuilder.add_operands_with_segment_sizes
        st segments).operands.length
        = st.operands.length + (segments.map List.length).sum
    ∧ (OperationBuilder.add_operands_with_segment_sizes st segments).attributes
        = st.attributes
          ++ [("operandSegmentSizes",
               DenseI32ArrayAttribute.new
                 (segments.map (fun s => (s.length : Int))))]
    ∧ Attribute.decodeDenseI32Array
        (DenseI32ArrayAttribute.new (segments.map (fun s => (s.length : Int))))
        = some (segments.map (fun s => (s.length : Int))) := by
  unfold OperationBuilder.add_operands_with_segment_sizes
  rw [map_i32ofNat_length_of_lt segments h]
  by_cases hemp : segments.flatten.isEmpty
  · have hnil : segments.flatten = [] := by
      simpa [List.isEmpty_iff] using hemp
    refine ⟨?_, ?_, ?_, rfl⟩
    · simp [hemp, hnil, mlirOperationStateAddAttributes,
        mlirOperationStateAddOperands]
    · simp [hemp, hnil, mlirOperationStateAddAttributes,
        mlirOperationStateAddOperands]
      simp [← List.length_flatten, hnil]
    · simp [hemp, mlirOperationStateAddAttributes]
  · refine ⟨?_, ?_, ?_, rfl⟩ <;>
      simp [hemp, mlirOperationStateAddAttributes,
        mlirOperationStateAddOperands, List.length_flatten]

/-- Witness for C1 at the segments `[[], [1], [2, 3]]` over `Nat` handles. -/
theorem add_operands_with_segment_sizes_correct_witness :
    (OperationBuilder.add_operands_with_segment_sizes
        (OperationBuilder.new "foo" 0 : OperationState Nat Nat Nat)
        [[], [1], [2, 3]]).operands
        = (OperationBuilder.new "foo" 0 : OperationState Nat Nat Nat).operands
          ++ ([[], [1], [2, 3]] : List (List Nat)).flatten
    ∧ (OperationBuilder.add_operands_with_segment_sizes
        (OperationBuilder.new "foo" 0 : OperationState Nat Nat Nat)
        [[], [1], [2, 3]]).operands.length
        = (OperationBuilder.new "foo" 0 :
            OperationState Nat Nat Nat).operands.length
          + (([[], [1], [2, 3]] : List (List Nat)).map List.length).sum
    ∧ (OperationBuilder.add_operands_with_segment_sizes
        (OperationBuilder.new "foo" 0 : OperationState Nat Nat Nat)
        [[], [1], [2, 3]]).attributes
        = (OperationBuilder.new "foo" 0 :
            OperationState Nat Nat Nat).attributes
          ++ [("operandSegmentSizes",
               DenseI32ArrayAttribute.new
                 (([[], [1], [2, 3]] : List (List Nat)).map
                   (fun s => (s.length : Int))))]
    ∧ Attribute.decodeDenseI32Array
        (DenseI32ArrayAttribute.new
          (([[], [1], [2, 3]] : List (List Nat)).map
            (fun s => (s.length : Int))))
        = some (([[], [1], [2, 3]] : List (List Nat)).map
            (fun s => (s.length : Int))) :=
  add_operands_with_segment_sizes_correct
    (OperationBuilder.new "foo" 0) [[], [1], [2, 3]] (by decide)

/-- Claim C10: when every segment is empty (including the empty segment
list), `add_operands_with_segment_sizes` adds no operands, yet still
attaches the `operandSegmentSizes` attribute recording one `0` entry per
segment, so the attribute's length equals the number of segments. -/
theorem add_operands_with_segment_sizes_all_empty {V T R : Type}
    (st : OperationState V T R) (segments : List (List V))
    (h : ∀ s ∈ segments, s = []) :
    (OperationBuilder.add_operands_with_segment_sizes st segments).operands
        = st.operands
    ∧ (OperationBuilder.add_operands_with_segment_sizes st segments).attributes
        = st.attributes
          ++ [("operandSegmentSizes",
               DenseI32ArrayAttribute.new (List.replicate segments.length 0))]
    ∧ (List.replicate segments.length (0 : Int)).length = segments.length := by
  have hnil : segments.flatten = [] := by
    rw [List.flatten_eq_nil_iff]
    intro s hs
    exact h s hs
  unfold OperationBuilder.add_operands_with_segment_sizes
  rw [map_i32ofNat_length_of_empty segments h]
  simp [hnil, mlirOperationStateAddAttributes]

/-- Witness for C10 at the segments `[[], [], []]` over `Nat` handles. -/
theorem add_operands_with_segment_sizes_all_empty_witness :
    (OperationBuilder.add_operands_with_segment_sizes
        (OperationBuilder.new "foo" 0 : OperationState Nat Nat Nat)
        [[], [], []]).operands
        = (OperationBuilder.new "foo" 0 : OperationState Nat Nat Nat).operands
    ∧ (OperationBuilder.add_operands_with_segment_sizes
        (OperationBuilder.new "foo" 0 : OperationState Nat Nat Nat)
        [[], [], []]).attributes
        = (OperationBuilder.new "foo" 0 :
            OperationState Nat Nat Nat).attributes
          ++ [("operandSegmentSizes",
               DenseI32ArrayAttribute.new
                 (List.replicate ([[], [], []] : List (List Nat)).length 0))]
    ∧ (List.replicate ([[], [], []] : List (List Nat)).length (0 : Int)).length
        = ([[], [], []] : List (List Nat)).length :=
  add_operands_with_segment_sizes_all_empty
    (OperationBuilder.new "foo" 0) [[], [], []] (by decide)

/-- Claim C3: `add_operands` and `add_results` are append-only — two
successive calls extend the prior sequence in call order, never replacing
earlier entries. -/
theorem add_operands_add_results_append_only {V T R : Type}
    (st : OperationState V T R) (a b : List V) (c d : List T) :
    (OperationBuilder.add_operands
        (OperationBuilder.add_operands st a) b).operands
        = st.operands ++ a ++ b
    ∧ (OperationBuilder.add_results
        (OperationBuilder.add_results st c) d).results
        = st.results ++ c ++ d := by
  constructor <;>
    simp [OperationBuilder.add_operands, OperationBuilder.add_results,
      mlirOperationStateAddOperands, mlirOperationStateAddResults]

/-- Claim C9: the fixed-length (`add_regions`) and variable-length
(`add_regions_vec`) entry points are equivalent: on the same region list
they produce the same builder state, namely the prior state with the regions
appended (ownership transfer of the handles themselves is enforced by Rust's
move semantics, outside value-level behaviour). -/
theorem add_regions_array_vec_equiv {V T R : Type} {n : Nat}
    (st : OperationState V T R) (regions : Fin n → R) (rs : List R) :
    OperationBuilder.add_regions st regions
        = OperationBuilder.add_regions_vec st (List.ofFn regions)
    ∧ (OperationBuilder.add_regions_vec st rs).regions = st.regions ++ rs :=
  ⟨rfl, rfl⟩

/-- Claim C2: `build` returns `Ok` with the constructed operation exactly
when the underlying construction step returns a non-null operation, and
returns `Error::OperationBuild` — and no other error kind — when it returns
null (consumption of the accumulator is enforced by Rust's move semantics,
outside value-level behaviour). -/
theorem build_ok_or_operation_build {V T R Op : Type}
    (create : OperationState V T R → Option Op) (st : OperationState V T R) :
    (∀ op : Op,
      OperationBuilder.build create st = Except.ok op ↔ create st = some op)
    ∧ (OperationBuilder.build create st = Except.error Error.OperationBuild
        ↔ create st = none)
    ∧ (∀ e : Error,
        OperationBuilder.build create st = Except.error e
          → e = Error.OperationBuild) := by
  unfold OperationBuilder.build
  cases hc : create st <;> simp

/-- Witness for C2: a construction step that signals null yields exactly
`Error::OperationBuild`. -/
theorem build_ok_or_operation_build_witness :
    OperationBuilder.build (fun _ => (none : Option Nat))
        (OperationBuilder.new "foo" 0 : OperationState Nat Nat Nat)
      = Except.error Error.OperationBuild :=
  (build_ok_or_operation_build (fun _ => (none : Option Nat))
      (OperationBuilder.new "foo" 0)).2.1.mpr rfl

/-- Claim C4: `parse_pass_pipeline` returns `Ok(())` exactly when the
underlying parse succeeds; on failure it returns `Error::ParsePassPipeline`
carrying the concatenation of every decodable diagnostic chunk delivered to
the callback, in order, or the fixed UTF-8 fallback message when no
decodable text was accumulated. -/
theorem parse_pass_pipeline_diagnostics (result : MlirLogicalResult)
    (chunks : List (Option String)) :
    parse_pass_pipeline result chunks
      = if (LogicalResult.from_raw result).is_success then Except.ok ()
        else
          Except.error (Error.ParsePassPipeline
            (match chunks.filterMap id with
             | [] => "failed to parse error message in UTF-8"
             | s :: rest => rest.foldl (fun a b => a ++ b) s)) := by
  unfold parse_pass_pipeline
  rw [accumulated_parse_error_eq]
  cases hm : chunks.filterMap id <;> simp

/-- Claim C5: the diagnostic callback is a stateful accumulator — zero
invocations leave the message absent, the first decodable chunk initializes
it, and every later decodable chunk appends to that same growing message
(an initialized message is only ever extended, and a malformed chunk is
handled totally, never by a panic). -/
theorem handle_parse_error_accumulator (chunks : List (Option String)) :
    accumulated_parse_error [] = none
    ∧ accumulated_parse_error chunks
        = (match chunks.filterMap id with
           | [] => none
           | s :: rest => some (rest.foldl (fun a b => a ++ b) s))
    ∧ (∀ m : String, ∀ c : Option String,
        ∃ t : String, handle_parse_error (some m) c = some (m ++ t)) := by
  refine ⟨rfl, accumulated_parse_error_eq chunks, ?_⟩
  intro m c
  cases c with
  | none => exact ⟨"", by simp [handle_parse_error]⟩
  | some s => exact ⟨s, rfl⟩

/-- Claim C6: for every positive number `n` of calls, iterating
`register_all_passes` `n` times from the initial process state has the same
observable effect as a single call, and the underlying raw registration has
then executed exactly once. -/
theorem register_all_passes_once (n : Nat) (h : 1 ≤ n) :
    register_all_passes^[n] PassRegistry.initial
        = register_all_passes PassRegistry.initial
    ∧ (register_all_passes^[n] PassRegistry.initial).rawRegistrationCount
        = 1 := by
  obtain ⟨k, rfl⟩ : ∃ k, n = k + 1 := ⟨n - 1, by omega⟩
  have hone : register_all_passes PassRegistry.initial
      = { onceDone := true, rawRegistrationCount := 1 } := rfl
  have hiter : register_all_passes^[k + 1] PassRegistry.initial
      = { onceDone := true, rawRegistrationCount := 1 } := by
    rw [Function.iterate_succ_apply, hone]
    exact register_all_passes_fixed k _ rfl
  exact ⟨by rw [hiter, hone], by rw [hiter]⟩

/-- Witness for C6 at `n = 1000` calls. -/
theorem register_all_passes_once_witness :
    register_all_passes^[1000] PassRegistry.initial
        = register_all_passes PassRegistry.initial
    ∧ (register_all_passes^[1000] PassRegistry.initial).rawRegistrationCount
        = 1 :=
  register_all_passes_once 1000 (by decide)

/-- Claim C7: `apply_named_sequence` and `merge_symbols_into_from_clone`
each return `Ok(())` exactly when the underlying engine reports success
(nonzero logical result), and on any failure both return one and the same
generic error kind, the payload-free `Error::OperationBuild`. -/
theorem transform_failures_generic (r1 r2 : MlirLogicalResult) :
    (apply_named_sequence r1 = Except.ok () ↔ r1.value ≠ 0)
    ∧ (merge_symbols_into_from_clone r2 = Except.ok () ↔ r2.value ≠ 0)
    ∧ (r1.value = 0
        → apply_named_sequence r1 = Except.error Error.OperationBuild)
    ∧ (r2.value = 0
        → merge_symbols_into_from_clone r2 = Except.error Error.OperationBuild)
    ∧ (∀ e : Error,
        apply_named_sequence r1 = Except.error e → e = Error.OperationBuild)
    ∧ (∀ e : Error,
        merge_symbols_into_from_clone r2 = Except.error e
          → e = Error.OperationBuild) := by
  unfold apply_named_sequence merge_symbols_into_from_clone
    LogicalResult.is_success LogicalResult.from_raw
  by_cases h1 : r1.value = 0 <;> by_cases h2 : r2.value = 0 <;>
    simp [h1, h2]

/-- Witness for C7: a failing engine result yields exactly
`Error::OperationBuild` from both entry points. -/
theorem transform_failures_generic_witness :
    apply_named_sequence ⟨0⟩ = Except.error Error.OperationBuild
    ∧ merge_symbols_into_from_clone ⟨0⟩
        = Except.error Error.OperationBuild :=
  ⟨(transform_failures_generic ⟨0⟩ ⟨0⟩).2.2.1 rfl,
   (transform_failures_generic ⟨0⟩ ⟨0⟩).2.2.2.1 rfl⟩

/-- Claim C8: the two `TransformOptions` flags are independent — setting one
flag to `b` reads back as `b` immediately and leaves the other flag's
observed value unchanged (each setter yields the record the chained call
continues on). -/
theorem transform_options_flags_independent (o : TransformOptions)
    (b : Bool) :
    (o.enable_expensive_checks b).expensive_checks_enabled = b
    ∧ (o.enable_expensive_checks b).single_top_level_transform_op_enforced
        = o.single_top_level_transform_op_enforced
    ∧ (o.enforce_single_top_level_transform_op
        b).single_top_level_transform_op_enforced = b
    ∧ (o.enforce_single_top_level_transform_op b).expensive_checks_enabled
        = o.expensive_checks_enabled :=
  ⟨rfl, rfl, rfl, rfl⟩

end Melior
